import Mathlib

/-!
# Verification of the progress-buddy persistence layer

Shallow embedding of the `ProgressBuddyDB` class (better-sqlite3 backed
store in `database.js`) and proofs about its operations.

Modelling conventions:
* The three SQLite tables (`activities`, `logs`, `goals`) are lists of row
  structures; a row's NOT NULL columns are plain Lean types, nullable
  columns are `Option`.
* JavaScript input records (whose properties may be `undefined`, bound as
  SQL NULL) are structures of `Option` fields.
* `CURRENT_TIMESTAMP` is modelled by a `now : Nat` clock in the store that
  advances after every mutating statement, so timestamps of distinct
  statements are distinct (an idealisation of second-resolution wall time).
* Every mutating operation returns `Store × Except DBError RunResult`;
  a single failed statement leaves the store unchanged, matching SQLite
  statement atomicity.
* Thrown JavaScript errors are classified by the error taxonomy of the
  design (§7): the failed property access on the `undefined` result of the
  `get` read step in `updateGoalProgress` is the "referenced entity
  absent" failure (`notFound`); constraint violations raised by the driver
  are `notNullViolation` / `foreignKeyViolation`; a failure thrown by a
  transaction's unit of work that is not one of these is `appError`.
-/

/-- Failure taxonomy for the store (design §7), classifying the errors the
JavaScript code throws. -/
inductive DBError where
  | notFound : DBError
  | notNullViolation : String → DBError
  | foreignKeyViolation : DBError
  | appError : String → DBError
  deriving Repr, DecidableEq

/-- Result of `run` in `database.js`:
`{ id: result.lastInsertRowid, changes: result.changes }`. -/
structure RunResult where
  id : Nat
  changes : Nat
  deriving Repr, DecidableEq

/-- A row of the `activities` table (schema in `createTables`):
`name`, `specific`, `measurable`, `timebound` are NOT NULL (hence plain
`String`, which still admits the empty string); `description`,
`achievable`, `relevant`, `buddy_email` are nullable; `completed BOOLEAN
DEFAULT 0` is modelled as `Bool`. -/
structure ActivityRow where
  id : Nat
  name : String
  description : Option String
  specific : String
  measurable : String
  achievable : Option String
  relevant : Option String
  timebound : String
  buddy_email : Option String
  completed : Bool
  created_at : Nat
  updated_at : Nat
  deriving Repr, DecidableEq

/-- A row of the `logs` table: `activity_id` and `text` are NOT NULL,
`metrics` nullable; `FOREIGN KEY (activity_id) REFERENCES activities (id)
ON DELETE CASCADE`. -/
structure LogRow where
  id : Nat
  activity_id : Nat
  text : String
  metrics : Option String
  created_at : Nat
  deriving Repr, DecidableEq

/-- A row of the `goals` table: `target_value INTEGER NOT NULL`,
`current_value INTEGER DEFAULT 0`, `achieved BOOLEAN DEFAULT 0`,
`target_date DATE` nullable; cascade foreign key to `activities`. -/
structure GoalRow where
  id : Nat
  activity_id : Nat
  target_value : Int
  current_value : Int
  target_date : Option String
  achieved : Bool
  created_at : Nat
  deriving Repr, DecidableEq

/-- The database state behind the single connection: the three tables,
the AUTOINCREMENT counters, sqlite's last-insert rowid, and the
`CURRENT_TIMESTAMP` clock. -/
structure Store where
  activities : List ActivityRow
  logs : List LogRow
  goals : List GoalRow
  nextActivityId : Nat
  nextLogId : Nat
  nextGoalId : Nat
  lastInsertRowid : Nat
  now : Nat
  deriving Repr, DecidableEq

/-- The JavaScript record passed to `createActivity` / `updateActivity`;
each property may be `undefined` (bound to the statement as NULL).  The
record may carry a `completed` property, but neither SQL statement in
`database.js` ever binds it. -/
structure ActivityInput where
  name : Option String
  description : Option String
  specific : Option String
  measurable : Option String
  achievable : Option String
  relevant : Option String
  timebound : Option String
  buddy_email : Option String
  completed : Option Bool
  deriving Repr, DecidableEq

/-- The record passed to `createLog`: `activity_id` and `text` present
(both columns are NOT NULL and required by the data model), `metrics`
optional. -/
structure LogInput where
  activity_id : Nat
  text : String
  metrics : Option String
  deriving Repr, DecidableEq

/-- The record passed to `createGoal`. -/
structure GoalInput where
  activity_id : Nat
  target_value : Int
  target_date : Option String
  deriving Repr, DecidableEq

/-- `SELECT ... ORDER BY created_at DESC`: sort rows so that greater
`created_at` keys come first. -/
def orderByDesc (key : α → Nat) (l : List α) : List α :=
  l.insertionSort (fun x y => key y ≤ key x)

/-- `getAllActivities`: `SELECT * FROM activities ORDER BY created_at DESC`. -/
def getAllActivities (s : Store) : List ActivityRow :=
  orderByDesc (fun a => a.created_at) s.activities

/-- `getLogsByActivity`: `SELECT * FROM logs WHERE activity_id = ? ORDER BY
created_at DESC`. -/
def getLogsByActivity (s : Store) (activityId : Nat) : List LogRow :=
  orderByDesc (fun l => l.created_at)
    (s.logs.filter (fun l => l.activity_id = activityId))

/-- `getGoalsByActivity`: `SELECT * FROM goals WHERE activity_id = ? ORDER BY
created_at DESC`. -/
def getGoalsByActivity (s : Store) (activityId : Nat) : List GoalRow :=
  orderByDesc (fun g => g.created_at)
    (s.goals.filter (fun g => g.activity_id = activityId))

/-- `createActivity`: `INSERT INTO activities (name, description, specific,
measurable, achievable, relevant, timebound, buddy_email) VALUES
(?, ?, ?, ?, ?, ?, ?, ?)`.  Binding NULL to a NOT NULL column makes the
driver throw; otherwise the row is inserted with the schema defaults
`completed = 0` and `created_at = updated_at = CURRENT_TIMESTAMP`. -/
def createActivity (s : Store) (a : ActivityInput) :
    Store × Except DBError RunResult :=
  match a.name, a.specific, a.measurable, a.timebound with
  | some nm, some sp, some me, some tb =>
      let row : ActivityRow :=
        { id := s.nextActivityId, name := nm, description := a.description,
          specific := sp, measurable := me, achievable := a.achievable,
          relevant := a.relevant, timebound := tb,
          buddy_email := a.buddy_email, completed := false,
          created_at := s.now, updated_at := s.now }
      ({ s with activities := s.activities ++ [row],
                nextActivityId := s.nextActivityId + 1,
                lastInsertRowid := row.id, now := s.now + 1 },
       Except.ok { id := row.id, changes := 1 })
  | _, _, _, _ => (s, Except.error (DBError.notNullViolation "activities"))

/-- `updateActivity`: `UPDATE activities SET name = ?, description = ?,
specific = ?, measurable = ?, achievable = ?, relevant = ?, timebound = ?,
buddy_email = ?, updated_at = CURRENT_TIMESTAMP WHERE id = ?`.  The SET
list does not mention `completed`.  When no row matches the WHERE clause
the statement succeeds with 0 changes (NOT NULL constraints are only
checked on rows actually updated). -/
def updateActivity (s : Store) (id : Nat) (a : ActivityInput) :
    Store × Except DBError RunResult :=
  let touched := s.activities.filter (fun r => r.id = id)
  if touched.isEmpty then
    ({ s with now := s.now + 1 },
     Except.ok { id := s.lastInsertRowid, changes := 0 })
  else
    match a.name, a.specific, a.measurable, a.timebound with
    | some nm, some sp, some me, some tb =>
        let upd : ActivityRow → ActivityRow := fun r =>
          if r.id = id then
            { r with name := nm, description := a.description,
                     specific := sp, measurable := me,
                     achievable := a.achievable, relevant := a.relevant,
                     timebound := tb, buddy_email := a.buddy_email,
                     updated_at := s.now }
          else r
        ({ s with activities := s.activities.map upd, now := s.now + 1 },
         Except.ok { id := s.lastInsertRowid, changes := touched.length })
    | _, _, _, _ => (s, Except.error (DBError.notNullViolation "activities"))

/-- `deleteActivity`: `DELETE FROM activities WHERE id = ?` with
`foreign_keys = ON`, so the enforced `ON DELETE CASCADE` actions remove
the logs and goals referencing each deleted row.  `changes` counts only
the rows deleted by the statement itself, not cascaded rows; a WHERE
clause matching no row is not an error. -/
def deleteActivity (s : Store) (id : Nat) :
    Store × Except DBError RunResult :=
  let removed := s.activities.filter (fun r => r.id = id)
  ({ s with
      activities := s.activities.filter (fun r => ¬ r.id = id),
      logs := s.logs.filter
        (fun l => ¬ removed.any (fun r => r.id = l.activity_id)),
      goals := s.goals.filter
        (fun g => ¬ removed.any (fun r => r.id = g.activity_id)),
      now := s.now + 1 },
   Except.ok { id := s.lastInsertRowid, changes := removed.length })

/-- `createLog`: `INSERT INTO logs (activity_id, text, metrics) VALUES
(?, ?, ?)`.  With `foreign_keys = ON` the insert fails when
`activity_id` references no activity row. -/
def createLog (s : Store) (l : LogInput) :
    Store × Except DBError RunResult :=
  if s.activities.any (fun a => a.id = l.activity_id) then
    let row : LogRow :=
      { id := s.nextLogId, activity_id := l.activity_id, text := l.text,
        metrics := l.metrics, created_at := s.now }
    ({ s with logs := s.logs ++ [row], nextLogId := s.nextLogId + 1,
              lastInsertRowid := row.id, now := s.now + 1 },
     Except.ok { id := row.id, changes := 1 })
  else (s, Except.error DBError.foreignKeyViolation)

/-- `createGoal`: `INSERT INTO goals (activity_id, target_value,
target_date) VALUES (?, ?, ?)`; `current_value` and `achieved` take their
schema defaults 0 and false; the foreign key to `activities` is
enforced. -/
def createGoal (s : Store) (g : GoalInput) :
    Store × Except DBError RunResult :=
  if s.activities.any (fun a => a.id = g.activity_id) then
    let row : GoalRow :=
      { id := s.nextGoalId, activity_id := g.activity_id,
        target_value := g.target_value, current_value := 0,
        target_date := g.target_date, achieved := false,
        created_at := s.now }
    ({ s with goals := s.goals ++ [row], nextGoalId := s.nextGoalId + 1,
              lastInsertRowid := row.id, now := s.now + 1 },
     Except.ok { id := row.id, changes := 1 })
  else (s, Except.error DBError.foreignKeyViolation)

/-- `updateGoalProgress`: first `this.get("SELECT target_value FROM goals
WHERE id = ?")` — reading `.target_value` of the `undefined` returned for
a missing row throws (the "referenced entity absent" failure) — then
`UPDATE goals SET current_value = ?, achieved = ? WHERE id = ?` with
`achieved = currentValue >= target_value` encoded as 1/0. -/
def updateGoalProgress (s : Store) (goalId : Nat) (currentValue : Int) :
    Store × Except DBError RunResult :=
  match s.goals.find? (fun g => g.id = goalId) with
  | none => (s, Except.error DBError.notFound)
  | some g =>
      let achieved : Bool := decide (g.target_value ≤ currentValue)
      let upd : GoalRow → GoalRow := fun r =>
        if r.id = goalId then
          { r with current_value := currentValue, achieved := achieved }
        else r
      ({ s with goals := s.goals.map upd, now := s.now + 1 },
       Except.ok { id := s.lastInsertRowid,
                   changes := (s.goals.filter (fun r => r.id = goalId)).length })

/-- `transaction(callback)`: `BEGIN TRANSACTION`; run the unit of work on
the connection; `COMMIT` on normal completion, else `ROLLBACK` (restoring
the pre-transaction state) and re-raise the original failure. -/
def transaction (s : Store)
    (callback : Store → Store × Except DBError α) :
    Store × Except DBError α :=
  let (s2, r) := callback s
  match r with
  | Except.ok v => (s2, Except.ok v)
  | Except.error e => (s, Except.error e)

/-- The connection handle held in `this.db` once `init()` has run; `close()`
releases it. -/
structure Connection where
  store : Store
  isOpen : Bool
  deriving Repr, DecidableEq

/-- The `ProgressBuddyDB` object: `this.db` is `null` until `init()`
assigns a connection. -/
structure ProgressBuddyDB where
  db : Option Connection
  deriving Repr, DecidableEq

/-- `constructor() { this.db = null; }` -/
def newProgressBuddyDB : ProgressBuddyDB := { db := none }

/-- `close()`: `if (this.db) { this.db.close(); }` — releases the handle
when one exists, otherwise does nothing; the guard means a never-
initialized instance returns normally. -/
def ProgressBuddyDB.close (p : ProgressBuddyDB) :
    ProgressBuddyDB × Except DBError Unit :=
  match p.db with
  | none => (p, Except.ok ())
  | some c => ({ db := some { c with isOpen := false } }, Except.ok ())

/-! ## Concrete sample data (used by witnesses and counterexamples) -/

/-- A freshly initialised database: empty tables, AUTOINCREMENT counters at
1, some wall-clock time. -/
def emptyStore : Store :=
  { activities := [], logs := [], goals := [],
    nextActivityId := 1, nextLogId := 1, nextGoalId := 1,
    lastInsertRowid := 0, now := 100 }

/-- The concrete activity of the design's test scenario (§8):
`{name:"Run 5k", specific:"Run", measurable:"5km", timebound:"30 days"}`. -/
def run5kInput : ActivityInput :=
  { name := some "Run 5k", description := none, specific := some "Run",
    measurable := some "5km", achievable := none, relevant := none,
    timebound := some "30 days", buddy_email := none, completed := none }

/-- A goal row for activity 1 with target 10 and no progress yet. -/
def sampleGoal : GoalRow :=
  { id := 1, activity_id := 1, target_value := 10, current_value := 0,
    target_date := none, achieved := false, created_at := 50 }

/-- The stored "Run 5k" activity, here already marked completed. -/
def run5kRowDone : ActivityRow :=
  { id := 1, name := "Run 5k", description := none, specific := "Run",
    measurable := "5km", achievable := none, relevant := none,
    timebound := "30 days", buddy_email := none, completed := true,
    created_at := 10, updated_at := 10 }

/-- A store holding the completed "Run 5k" activity, a goal on it, and a
log attached to it. -/
def sampleStore : Store :=
  { activities := [run5kRowDone],
    logs := [{ id := 1, activity_id := 1, text := "ran today",
               metrics := none, created_at := 40 }],
    goals := [sampleGoal],
    nextActivityId := 2, nextLogId := 2, nextGoalId := 2,
    lastInsertRowid := 1, now := 100 }

/-- Full update record for the "Run 5k" activity that also tries to clear
the completed flag. -/
def run5kUpdateInput : ActivityInput :=
  { name := some "Run 5k", description := some "weekly run",
    specific := some "Run", measurable := some "5km", achievable := none,
    relevant := none, timebound := some "30 days", buddy_email := none,
    completed := some false }

/-- An otherwise valid activity record whose required `name` is the empty
string (present, hence not NULL). -/
def emptyNameInput : ActivityInput :=
  { name := some "", description := none, specific := some "Run",
    measurable := some "5km", achievable := none, relevant := none,
    timebound := some "30 days", buddy_email := none, completed := none }

/-- An activity record missing its required `name` property. -/
def missingNameInput : ActivityInput :=
  { name := none, description := none, specific := some "Run",
    measurable := some "5km", achievable := none, relevant := none,
    timebound := some "30 days", buddy_email := none, completed := none }

/-- A unit of work that performs one successful insert and then raises. -/
def failingWork (s : Store) : Store × Except DBError Unit :=
  let (s1, _) := createActivity s run5kInput
  (s1, Except.error (DBError.appError "unit of work failed"))

/-! ## Claims -/

/-- The goal row as `updateGoalProgress` rewrites it: `current_value`
replaced by the new value, `achieved` recomputed from the comparison with
`target_value`. -/
def goalAfterProgress (g : GoalRow) (v : Int) : GoalRow :=
  { g with current_value := v, achieved := decide (g.target_value ≤ v) }

/-- C1: for every existing goal with target value `t`, after
`updateGoalProgress(goalId, v)` completes normally the stored goal has
`current_value = v` and `achieved = (v >= t)`; `achieved` is true exactly
when `v >= t`. -/
theorem updateGoalProgress_recomputes_achieved (s : Store) (gid : Nat)
    (v : Int) (g : GoalRow)
    (hfind : s.goals.find? (fun r => r.id = gid) = some g) :
    ∃ s2 res, updateGoalProgress s gid v = (s2, Except.ok res) ∧
      s2.goals.find? (fun r => r.id = gid) = some (goalAfterProgress g v) ∧
      (goalAfterProgress g v).current_value = v ∧
      ((goalAfterProgress g v).achieved = true ↔ g.target_value ≤ v) := by
  have hid : g.id = gid := by simpa using List.find?_some hfind
  simp only [updateGoalProgress, hfind]
  refine ⟨_, _, rfl, ?_, by simp [goalAfterProgress],
    by simp [goalAfterProgress]⟩
  rw [List.find?_map]
  have hcomp :
      ((fun r : GoalRow => decide (r.id = gid)) ∘
        (fun r : GoalRow => if r.id = gid then
          { r with current_value := v,
                   achieved := decide (g.target_value ≤ v) } else r))
      = fun r : GoalRow => decide (r.id = gid) := by
    funext r
    by_cases h : r.id = gid <;> simp [h]
  rw [hcomp, hfind]
  simp [hid, goalAfterProgress]

/-- C1 witness: in a store holding the sample goal (target 10), updating
progress to 10 marks it achieved. -/
theorem updateGoalProgress_recomputes_achieved_witness :
    ∃ s2 res, updateGoalProgress sampleStore 1 10 = (s2, Except.ok res) ∧
      s2.goals.find? (fun r => r.id = 1) =
        some (goalAfterProgress sampleGoal 10) ∧
      (goalAfterProgress sampleGoal 10).current_value = 10 ∧
      ((goalAfterProgress sampleGoal 10).achieved = true ↔
        sampleGoal.target_value ≤ 10) :=
  updateGoalProgress_recomputes_achieved sampleStore 1 10 sampleGoal (by rfl)

/-- C3: when no goal has the given id, `updateGoalProgress` fails with the
absent-entity error (the read step returns no row) and the store —
in particular the goals table — is unchanged. -/
theorem updateGoalProgress_missing_goal (s : Store) (gid : Nat) (v : Int)
    (h : s.goals.find? (fun r => r.id = gid) = none) :
    updateGoalProgress s gid v = (s, Except.error DBError.notFound) := by
  simp [updateGoalProgress, h]

/-- C3 witness: updating goal 1 in an empty database fails with the
absent-entity error and changes nothing. -/
theorem updateGoalProgress_missing_goal_witness :
    updateGoalProgress emptyStore 1 5 =
      (emptyStore, Except.error DBError.notFound) :=
  updateGoalProgress_missing_goal emptyStore 1 5 (by rfl)

/-- C5: inserting a log whose `activity_id` references no existing
activity fails with the foreign-key constraint violation and inserts no
row (the store is returned unchanged). -/
theorem createLog_foreign_key_violation (s : Store) (l : LogInput)
    (h : s.activities.any (fun a => a.id = l.activity_id) = false) :
    createLog s l = (s, Except.error DBError.foreignKeyViolation) := by
  simp only [createLog, h]
  simp

/-- C5 witness: a log for activity 1 in an empty database is rejected. -/
theorem createLog_foreign_key_violation_witness :
    createLog emptyStore { activity_id := 1, text := "ran", metrics := none }
      = (emptyStore, Except.error DBError.foreignKeyViolation) :=
  createLog_foreign_key_violation emptyStore
    { activity_id := 1, text := "ran", metrics := none } (by rfl)

/-- C10: `close()` on a never-initialized instance (`this.db` still null)
is a no-op: it returns normally with the state untouched. -/
theorem close_uninitialized_noop (p : ProgressBuddyDB) (h : p.db = none) :
    ProgressBuddyDB.close p = (p, Except.ok ()) := by
  simp [ProgressBuddyDB.close, h]

/-- C10 witness: closing a freshly constructed `ProgressBuddyDB` is a
no-op. -/
theorem close_uninitialized_noop_witness :
    ProgressBuddyDB.close newProgressBuddyDB =
      (newProgressBuddyDB, Except.ok ()) :=
  close_uninitialized_noop newProgressBuddyDB (by rfl)

/-- C2: the transaction wrapper commits the unit of work's writes on
normal completion; when the unit of work raises — even after successful
writes — the store reverts to its pre-transaction state and the original
failure is re-raised. -/
theorem transaction_commit_or_rollback {α : Type} (s s2 : Store)
    (work : Store → Store × Except DBError α) :
    (∀ e, work s = (s2, Except.error e) →
      transaction s work = (s, Except.error e)) ∧
    (∀ v, work s = (s2, Except.ok v) →
      transaction s work = (s2, Except.ok v)) := by
  constructor <;> intro x h <;> simp [transaction, h]

/-- C2 witness: a unit of work that inserts one activity (visibly growing
the table) and then raises leaves the store exactly as before the call,
with the failure re-raised. -/
theorem transaction_commit_or_rollback_witness :
    (failingWork emptyStore).fst.activities.length
        = emptyStore.activities.length + 1 ∧
    transaction emptyStore failingWork =
      (emptyStore, Except.error (DBError.appError "unit of work failed")) := by
  refine ⟨rfl, ?_⟩
  exact (transaction_commit_or_rollback emptyStore
    (failingWork emptyStore).fst failingWork).1
    (DBError.appError "unit of work failed") rfl

/-- Listing logs for an activity_id carried by no log row yields the
empty list. -/
theorem getLogsByActivity_eq_nil (s : Store) (aid : Nat)
    (h : ∀ l ∈ s.logs, ¬ l.activity_id = aid) :
    getLogsByActivity s aid = [] := by
  unfold getLogsByActivity orderByDesc
  have hnil : s.logs.filter (fun l => l.activity_id = aid) = [] := by
    rw [List.filter_eq_nil_iff]
    intro l hl
    simpa using h l hl
  rw [hnil]
  rfl

/-- Listing goals for an activity_id carried by no goal row yields the
empty list. -/
theorem getGoalsByActivity_eq_nil (s : Store) (aid : Nat)
    (h : ∀ g ∈ s.goals, ¬ g.activity_id = aid) :
    getGoalsByActivity s aid = [] := by
  unfold getGoalsByActivity orderByDesc
  have hnil : s.goals.filter (fun g => g.activity_id = aid) = [] := by
    rw [List.filter_eq_nil_iff]
    intro g hg
    simpa using h g hg
  rw [hnil]
  rfl

/-- C4: deleting an existing activity removes its row, and the enforced
cascade leaves no log and no goal with that activity_id; the per-activity
listings come back empty afterwards. -/
theorem deleteActivity_cascades (s : Store) (id : Nat)
    (hex : s.activities.any (fun a => a.id = id) = true) :
    ∃ s2 res, deleteActivity s id = (s2, Except.ok res) ∧
      (∀ a ∈ s2.activities, ¬ a.id = id) ∧
      (∀ l ∈ s2.logs, ¬ l.activity_id = id) ∧
      (∀ g ∈ s2.goals, ¬ g.activity_id = id) ∧
      getLogsByActivity s2 id = [] ∧
      getGoalsByActivity s2 id = [] := by
  have hex2 : ∃ a ∈ s.activities, a.id = id := by simpa using hex
  obtain ⟨a0, ha0mem, ha0id⟩ := hex2
  have hacts : ∀ a ∈ (deleteActivity s id).fst.activities, ¬ a.id = id := by
    intro a ha
    have := (List.mem_filter.mp ha).2
    simpa using this
  have hlogs : ∀ l ∈ (deleteActivity s id).fst.logs,
      ¬ l.activity_id = id := by
    intro l hl hlid
    have h2 := (List.mem_filter.mp hl).2
    have hany : ((s.activities.filter (fun r => r.id = id)).any
        (fun r => r.id = l.activity_id)) = true := by
      rw [List.any_eq_true]
      exact ⟨a0, by simp [List.mem_filter, ha0mem, ha0id],
        by simp [ha0id, hlid]⟩
    simp [hany] at h2
  have hgoals : ∀ g ∈ (deleteActivity s id).fst.goals,
      ¬ g.activity_id = id := by
    intro g hg hgid
    have h2 := (List.mem_filter.mp hg).2
    have hany : ((s.activities.filter (fun r => r.id = id)).any
        (fun r => r.id = g.activity_id)) = true := by
      rw [List.any_eq_true]
      exact ⟨a0, by simp [List.mem_filter, ha0mem, ha0id],
        by simp [ha0id, hgid]⟩
    simp [hany] at h2
  exact ⟨_, _, rfl, hacts, hlogs, hgoals,
    getLogsByActivity_eq_nil _ id hlogs,
    getGoalsByActivity_eq_nil _ id hgoals⟩

/-- C4 witness: deleting activity 1 from the sample store (which holds a
log and a goal for it) empties all three tables of rows tied to id 1. -/
theorem deleteActivity_cascades_witness :
    ∃ s2 res, deleteActivity sampleStore 1 = (s2, Except.ok res) ∧
      (∀ a ∈ s2.activities, ¬ a.id = 1) ∧
      (∀ l ∈ s2.logs, ¬ l.activity_id = 1) ∧
      (∀ g ∈ s2.goals, ¬ g.activity_id = 1) ∧
      getLogsByActivity s2 1 = [] ∧
      getGoalsByActivity s2 1 = [] :=
  deleteActivity_cascades sampleStore 1 (by rfl)

/-- C9: deleting an id that matches no activity completes normally,
reports 0 affected rows, and leaves all three tables unchanged. -/
theorem deleteActivity_missing_id (s : Store) (id : Nat)
    (h : ∀ a ∈ s.activities, ¬ a.id = id) :
    (deleteActivity s id).fst.activities = s.activities ∧
    (deleteActivity s id).fst.logs = s.logs ∧
    (deleteActivity s id).fst.goals = s.goals ∧
    (deleteActivity s id).snd =
      Except.ok { id := s.lastInsertRowid, changes := 0 } := by
  have hrem : s.activities.filter (fun r => r.id = id) = [] := by
    rw [List.filter_eq_nil_iff]
    intro a ha
    simpa using h a ha
  refine ⟨?_, ?_, ?_, ?_⟩
  · show s.activities.filter (fun r => ¬ r.id = id) = s.activities
    rw [List.filter_eq_self]
    intro a ha
    simpa using h a ha
  · show s.logs.filter _ = s.logs
    simp [hrem]
  · show s.goals.filter _ = s.goals
    simp [hrem]
  · have hlen : (s.activities.filter (fun r => r.id = id)).length = 0 := by
      rw [hrem]
      rfl
    show Except.ok
        { id := s.lastInsertRowid,
          changes := (s.activities.filter (fun r => r.id = id)).length }
      = (Except.ok { id := s.lastInsertRowid, changes := 0 } :
          Except DBError RunResult)
    rw [hlen]

/-- C9 witness: deleting the absent id 99 from the sample store is a
reported no-op. -/
theorem deleteActivity_missing_id_witness :
    (deleteActivity sampleStore 99).fst.activities = sampleStore.activities ∧
    (deleteActivity sampleStore 99).fst.logs = sampleStore.logs ∧
    (deleteActivity sampleStore 99).fst.goals = sampleStore.goals ∧
    (deleteActivity sampleStore 99).snd =
      Except.ok { id := sampleStore.lastInsertRowid, changes := 0 } :=
  deleteActivity_missing_id sampleStore 99 (by decide)

/-- The activity row as `updateActivity` rewrites it: the eight columns of
the SET list replaced from the input, `updated_at` set to the statement
time; `id`, `completed` and `created_at` are not in the SET list and stay
untouched. -/
def activityAfterUpdate (r : ActivityRow) (a : ActivityInput)
    (nm sp me tb : String) (t : Nat) : ActivityRow :=
  { r with name := nm, description := a.description, specific := sp,
           measurable := me, achievable := a.achievable,
           relevant := a.relevant, timebound := tb,
           buddy_email := a.buddy_email, updated_at := t }

/-- C6 counterexample: the claim says `updateActivity` rewrites every
mutable field including `completed`.  On the sample store, whose only
activity is completed, a full update record carrying `completed: false`
succeeds (1 row changed) yet the stored row still has `completed = true`:
the UPDATE statement's SET list omits `completed`. -/
theorem updateActivity_ignores_completed :
    run5kUpdateInput.completed = some false ∧
    (updateActivity sampleStore 1 run5kUpdateInput).fst.activities.map
      (fun r => r.completed) = [true] ∧
    (updateActivity sampleStore 1 run5kUpdateInput).snd =
      Except.ok { id := 1, changes := 1 } :=
  ⟨rfl, rfl, rfl⟩

/-- C6 (amended): `updateActivity(id, fields)` rewrites every mutable
field except `completed` (name, description, specific, measurable,
achievable, relevant, timebound, buddy_email) from the supplied record,
sets `updated_at` to the current time, leaves `completed` unchanged, and
returns the affected-row count — 0 when no activity with that id exists,
reported rather than raised. -/
theorem updateActivity_rewrites_mutable_fields (s : Store) (id : Nat)
    (a : ActivityInput) (nm sp me tb : String)
    (hn : a.name = some nm) (hs : a.specific = some sp)
    (hm : a.measurable = some me) (ht : a.timebound = some tb) :
    ∃ s2 res, updateActivity s id a = (s2, Except.ok res) ∧
      res.changes = (s.activities.filter (fun r => r.id = id)).length ∧
      ((∀ r ∈ s.activities, ¬ r.id = id) →
        res.changes = 0 ∧ s2.activities = s.activities) ∧
      (∀ r ∈ s.activities, r.id = id →
        activityAfterUpdate r a nm sp me tb s.now ∈ s2.activities ∧
        (activityAfterUpdate r a nm sp me tb s.now).completed = r.completed ∧
        (activityAfterUpdate r a nm sp me tb s.now).updated_at = s.now) := by
  simp only [updateActivity]
  split
  case isTrue hempty =>
    have hnil : s.activities.filter (fun r => r.id = id) = [] :=
      List.isEmpty_iff.mp hempty
    refine ⟨_, _, rfl, ?_, fun _ => ⟨rfl, rfl⟩, ?_⟩
    · rw [hnil]
      rfl
    · intro r hr hrid
      exfalso
      have hmem : r ∈ s.activities.filter (fun r => r.id = id) := by
        simp [List.mem_filter, hr, hrid]
      rw [hnil] at hmem
      exact List.not_mem_nil r hmem
  case isFalse hempty =>
    rw [hn, hs, hm, ht]
    refine ⟨_, _, rfl, rfl, ?_, ?_⟩
    · intro hnone
      exfalso
      apply hempty
      rw [List.isEmpty_iff, List.filter_eq_nil_iff]
      intro r hr
      simpa using hnone r hr
    · intro r hr hrid
      refine ⟨?_, rfl, rfl⟩
      exact List.mem_map.mpr ⟨r, hr, by simp [hrid, activityAfterUpdate]⟩

/-- C6 witness: a full update of the completed "Run 5k" activity changes
1 row and rewrites all SET-list fields. -/
theorem updateActivity_rewrites_mutable_fields_witness :
    ∃ s2 res, updateActivity sampleStore 1 run5kUpdateInput =
        (s2, Except.ok res) ∧
      res.changes = (sampleStore.activities.filter
        (fun r => r.id = 1)).length ∧
      ((∀ r ∈ sampleStore.activities, ¬ r.id = 1) →
        res.changes = 0 ∧ s2.activities = sampleStore.activities) ∧
      (∀ r ∈ sampleStore.activities, r.id = 1 →
        activityAfterUpdate r run5kUpdateInput "Run 5k" "Run" "5km"
          "30 days" sampleStore.now ∈ s2.activities ∧
        (activityAfterUpdate r run5kUpdateInput "Run 5k" "Run" "5km"
          "30 days" sampleStore.now).completed = r.completed ∧
        (activityAfterUpdate r run5kUpdateInput "Run 5k" "Run" "5km"
          "30 days" sampleStore.now).updated_at = sampleStore.now) :=
  updateActivity_rewrites_mutable_fields sampleStore 1 run5kUpdateInput
    "Run 5k" "Run" "5km" "30 days" rfl rfl rfl rfl

/-- Rows listed by `getAllActivities` are exactly the rows of the
activities table (ORDER BY permutes, never drops or invents). -/
theorem mem_getAllActivities (s : Store) (r : ActivityRow) :
    r ∈ getAllActivities s ↔ r ∈ s.activities :=
  (List.perm_insertionSort _ s.activities).mem_iff

instance : IsTotal ActivityRow
    (fun x y => y.created_at ≤ x.created_at) :=
  ⟨fun a b => Nat.le_total b.created_at a.created_at⟩

instance : IsTrans ActivityRow
    (fun x y => y.created_at ≤ x.created_at) :=
  ⟨fun _ _ _ hab hbc => Nat.le_trans hbc hab⟩

/-- `getAllActivities` returns rows newest-created first. -/
theorem getAllActivities_sorted (s : Store) :
    List.Sorted (fun x y : ActivityRow => y.created_at ≤ x.created_at)
      (getAllActivities s) :=
  List.sorted_insertionSort _ s.activities

/-- C7: creating a valid activity and then listing yields the new record
with every supplied field round-tripped exactly and `completed` defaulted
to false, in a list ordered newest-created first. -/
theorem createActivity_then_list_roundtrip (s : Store) (a : ActivityInput)
    (nm sp me tb : String)
    (hn : a.name = some nm) (hs : a.specific = some sp)
    (hm : a.measurable = some me) (ht : a.timebound = some tb) :
    ∃ s2 res, createActivity s a = (s2, Except.ok res) ∧
      (∃ r ∈ getAllActivities s2,
        r.id = res.id ∧ r.name = nm ∧ r.description = a.description ∧
        r.specific = sp ∧ r.measurable = me ∧
        r.achievable = a.achievable ∧ r.relevant = a.relevant ∧
        r.timebound = tb ∧ r.buddy_email = a.buddy_email ∧
        r.completed = false) ∧
      List.Sorted (fun x y : ActivityRow => y.created_at ≤ x.created_at)
        (getAllActivities s2) := by
  simp only [createActivity, hn, hs, hm, ht]
  refine ⟨_, _, rfl, ?_, getAllActivities_sorted _⟩
  refine ⟨{ id := s.nextActivityId, name := nm,
            description := a.description, specific := sp,
            measurable := me, achievable := a.achievable,
            relevant := a.relevant, timebound := tb,
            buddy_email := a.buddy_email, completed := false,
            created_at := s.now, updated_at := s.now },
    ?_, rfl, rfl, rfl, rfl, rfl, rfl, rfl, rfl, rfl, rfl⟩
  rw [mem_getAllActivities]
  simp

/-- C7 witness: creating the "Run 5k" activity in an empty database and
listing round-trips all fields. -/
theorem createActivity_then_list_roundtrip_witness :
    ∃ s2 res, createActivity emptyStore run5kInput =
        (s2, Except.ok res) ∧
      (∃ r ∈ getAllActivities s2,
        r.id = res.id ∧ r.name = "Run 5k" ∧
        r.description = run5kInput.description ∧
        r.specific = "Run" ∧ r.measurable = "5km" ∧
        r.achievable = run5kInput.achievable ∧
        r.relevant = run5kInput.relevant ∧
        r.timebound = "30 days" ∧
        r.buddy_email = run5kInput.buddy_email ∧
        r.completed = false) ∧
      List.Sorted (fun x y : ActivityRow => y.created_at ≤ x.created_at)
        (getAllActivities s2) :=
  createActivity_then_list_roundtrip emptyStore run5kInput
    "Run 5k" "Run" "5km" "30 days" rfl rfl rfl rfl

/-- C8 counterexample: the claim says no stored activity can have an
empty `name`, `specific`, `measurable` or `timebound`.  But the schema
constraint is NOT NULL, not non-empty: inserting a record whose required
`name` is the empty string succeeds and stores a row with `name = ""`. -/
theorem createActivity_admits_empty_name :
    (createActivity emptyStore emptyNameInput).snd =
      Except.ok { id := 1, changes := 1 } ∧
    (createActivity emptyStore emptyNameInput).fst.activities.map
      (fun r => r.name) = [""] :=
  ⟨rfl, rfl⟩

/-- C8 (amended): every stored activity has `name`, `specific`,
`measurable` and `timebound` present (non-NULL — the row type carries
them as plain strings, possibly empty): `createActivity` fails with the
not-null constraint violation, inserting no row, whenever any of the four
required properties is absent. -/
theorem createActivity_requires_presence (s : Store) (a : ActivityInput)
    (h : a.name = none ∨ a.specific = none ∨ a.measurable = none ∨
      a.timebound = none) :
    createActivity s a =
      (s, Except.error (DBError.notNullViolation "activities")) := by
  obtain ⟨na, d, sp, me, ac, re, tb, be, co⟩ := a
  cases na <;> cases sp <;> cases me <;> cases tb <;>
    simp_all [createActivity]

/-- C8 witness: an activity record missing its `name` is rejected with
the not-null violation and the empty store is unchanged. -/
theorem createActivity_requires_presence_witness :
    createActivity emptyStore missingNameInput =
      (emptyStore, Except.error (DBError.notNullViolation "activities")) :=
  createActivity_requires_presence emptyStore missingNameInput
    (Or.inl rfl)
